import Mathlib

/-!
Shallow embedding of `src/backend/src/dal.py` (a MongoDB data-access layer for
named to-do lists made of checkable items).

Modelling conventions:
* Python exceptions are modelled with `Except DalError`: a `KeyError` raised by
  `doc["k"]` on a missing key becomes `.keyError k`; subscripting a non-dict
  value (including `None`) becomes `.typeError`; a pydantic `ValidationError`
  becomes `.validationError`; `bson.ObjectID(s)` on a non-parsable string
  becomes `.invalidId`. The constructor `.notFound` exists only so that the
  spec's `NotFound` taxonomy entry is statable; the source never produces it.
* BSON documents coming back from the store are dynamic: `BDoc` is a field
  list, `BVal` a BSON value. Pydantic's validation is the default lax mode of
  a plain `BaseModel`: `str` fields accept only strings (no numeric or
  boolean coercion), `bool` fields also lax-coerce the ints 0/1 and the
  case-insensitive boolean strings ("true"/"t"/"yes"/"y"/"on"/"1" and their
  negatives), `int` fields also lax-coerce integer-formatted strings
  (`laxBool` and `laxInt` below). `BVal` carries no float or bytes value, so
  pydantic's float/bytes coercions have no counterpart here.
* The store is a list of well-formed list documents (`ListDoc`); this is the
  invariant Mongo maintains for a collection populated only through this DAL
  (`create_todo_list` inserts `{name, items: []}` and `create_item` pushes
  `{id, label, is_checked}` subdocuments). Decoding re-enters the dynamic
  world through `ListDoc.toBDoc` / `ItemDoc.toBDoc`, which emit exactly the
  fields the store holds; in particular item subdocuments carry `id` and no
  `_id`.
* Store requests are translated to their MongoDB semantics: `find_one` /
  `delete_one` / `find_one_and_update` with `ReturnDocument.AFTER`; the
  filter `{_id: o, "items.id": i}` matches a document whose `_id` is `o` and
  whose `items` array has an element with `id = i`; `$push` appends; the
  positional `$set items.$.is_checked` writes the first array element
  matching the filter's array predicate; `$pull {items: {id: i}}` removes
  every element with `id = i`. The source's slips of naming
  (`ObjectID` for `ObjectId`, `find_one_and_update_one` for
  `find_one_and_update`, `self.todo_collection` for `self._todo_collection`)
  are read as the standard motor/pymongo referents they evidently stand for;
  data-level behaviour such as which field names are read and written is kept
  exactly as written.
* `uuid4().hex` is nondeterministic, so the generated token is threaded as an
  explicit `fresh` argument. The optional `session` parameter is a pass-through
  and is dropped.
-/

namespace FarmDal

/-- Error outcomes of a DAL call, see the modelling conventions above. -/
inductive DalError where
  | keyError (field : String)
  | typeError
  | validationError
  | invalidId
  | notFound
deriving DecidableEq

/-- The store's native identifier (`bson.ObjectID`), carried as its 24-char
hex string. -/
structure ObjectID where
  hex : String
deriving DecidableEq

/-- Is the character a hexadecimal digit? -/
def isHexChar (c : Char) : Bool :=
  c.isDigit || (('a' ≤ c && c ≤ 'f') || ('A' ≤ c && c ≤ 'F'))

/-- Strings accepted by the `bson.ObjectID` constructor: 24 hex characters. -/
def validOid (s : String) : Bool :=
  s.length == 24 && s.data.all isHexChar

/-- The `ObjectID(id)` constructor call: parses an external string id, raising
`InvalidId` when the string is not a 24-char hex string. -/
def ObjectID.decode (s : String) : Except DalError ObjectID :=
  if validOid s then .ok ⟨s⟩ else .error .invalidId

/-- A dynamic BSON value as surfaced to Python by the driver. -/
inductive BVal where
  | str (s : String)
  | bool (b : Bool)
  | int (n : Int)
  | oid (o : ObjectID)
  | arr (elems : List BVal)
  | doc (fields : List (String × BVal))

/-- A dynamic BSON document: a list of named fields (keys unique, as in a
Python dict). -/
abbrev BDoc := List (String × BVal)

/-- Python `doc["k"]` on a dict, as a partial lookup (first binding wins). -/
def getField (doc : BDoc) (k : String) : Option BVal :=
  (doc.find? (fun kv => kv.fst == k)).map (fun kv => kv.snd)

/-- Python `str(...)` applied to a BSON value (only ever reached on `_id`
fields in this code; the array/doc renderings are never used by a claim). -/
def pyStr : BVal → String
  | .str s => s
  | .bool b => if b then "True" else "False"
  | .int n => toString n
  | .oid o => o.hex
  | .arr _ => "<list>"
  | .doc _ => "<dict>"

/-- Pydantic's lax validation of a `bool` field: a boolean itself, the ints
0 and 1, and the documented case-insensitive boolean strings coerce; every
other value is rejected. -/
def laxBool : BVal → Option Bool
  | .bool b => some b
  | .int n => if n == 0 then some false else if n == 1 then some true else none
  | .str s =>
      let t := s.toLower
      if t == "true" || t == "t" || t == "yes" || t == "y" || t == "on" || t == "1" then
        some true
      else if t == "false" || t == "f" || t == "no" || t == "n" || t == "off" || t == "0" then
        some false
      else none
  | _ => none

/-- Pydantic's lax validation of an `int` field: an int itself or an
integer-formatted string coerces; every other value is rejected. -/
def laxInt : BVal → Option Int
  | .int n => some n
  | .str s => s.toInt?
  | _ => none

/-- View model `ListSummary` (pydantic): `id: str, name: str, item_count: int`. -/
structure ListSummary where
  id : String
  name : String
  item_count : Int
deriving DecidableEq

/-- `ListSummary.from_doc`: `id=str(doc["_id"]), name=doc["name"],
item_count=doc["item_count"]`, then pydantic validation. -/
def ListSummary.from_doc (doc : BDoc) : Except DalError ListSummary :=
  match getField doc "_id" with
  | none => .error (.keyError "_id")
  | some idv =>
    match getField doc "name" with
    | none => .error (.keyError "name")
    | some namev =>
      match getField doc "item_count" with
      | none => .error (.keyError "item_count")
      | some countv =>
        match namev, laxInt countv with
        | .str n, some c => .ok ⟨pyStr idv, n, c⟩
        | _, _ => .error .validationError

/-- View model `ToDoListItem` (pydantic): `id: str, label: str,
is_checked: bool`. -/
structure ToDoListItem where
  id : String
  label : String
  is_checked : Bool
deriving DecidableEq

/-- `ToDoListItem.from_doc`: `id=str(item["_id"]), label=item["label"],
is_checked=item["is_checked"]`, then pydantic validation. Note the source
reads the key `_id` here, exactly as written. -/
def ToDoListItem.from_doc (item : BDoc) : Except DalError ToDoListItem :=
  match getField item "_id" with
  | none => .error (.keyError "_id")
  | some idv =>
    match getField item "label" with
    | none => .error (.keyError "label")
    | some labelv =>
      match getField item "is_checked" with
      | none => .error (.keyError "is_checked")
      | some checkedv =>
        match labelv, laxBool checkedv with
        | .str l, some c => .ok ⟨pyStr idv, l, c⟩
        | _, _ => .error .validationError

/-- View model `ToDoList` (pydantic): `id: str, name: str,
items: list[ToDoListItem]`. -/
structure ToDoList where
  id : String
  name : String
  items : List ToDoListItem
deriving DecidableEq

/-- The comprehension `[ToDoListItem.from_doc(item) for item in doc["items"]]`
over the elements of a BSON array: each element must itself be a document
(subscripting anything else raises a TypeError), and the first failing
element aborts the comprehension. -/
def decodeItems : List BVal → Except DalError (List ToDoListItem)
  | [] => .ok []
  | .doc fields :: rest => do
      let i ← ToDoListItem.from_doc fields
      let tl ← decodeItems rest
      .ok (i :: tl)
  | _ :: _ => .error .typeError

/-- The decode Python applies to one element of the `items` array: the
element must be a document, and then `ToDoListItem.from_doc` runs on it. -/
def elemDecode : BVal → Except DalError ToDoListItem
  | .doc fields => ToDoListItem.from_doc fields
  | _ => .error .typeError

/-- `ToDoList.from_doc`: `id=str(doc["_id"]), name=doc["name"], items=[...]`,
then pydantic validation. Iterating a non-array `items` value is modelled as
the TypeError it (or its per-element decode) raises in Python. -/
def ToDoList.from_doc (doc : BDoc) : Except DalError ToDoList :=
  match getField doc "_id" with
  | none => .error (.keyError "_id")
  | some idv =>
    match getField doc "name" with
    | none => .error (.keyError "name")
    | some namev =>
      match getField doc "items" with
      | none => .error (.keyError "items")
      | some itemsv =>
        match itemsv with
        | .arr elems =>
          match decodeItems elems with
          | .error e => .error e
          | .ok its =>
            match namev with
            | .str n => .ok ⟨pyStr idv, n, its⟩
            | _ => .error .validationError
        | _ => .error .typeError

/-- `ToDoList.from_doc` applied to the raw result of a `find_one`, which in
Python may be `None`; `None["_id"]` raises a TypeError. -/
def ToDoList.from_docN : Option BDoc → Except DalError ToDoList
  | none => .error .typeError
  | some doc => ToDoList.from_doc doc

/-- An item subdocument as the store holds it: the exact fields pushed by
`create_item` — `{"id": uuid4().hex, "label": label, "is_checked": False}`. -/
structure ItemDoc where
  id : String
  label : String
  is_checked : Bool
deriving DecidableEq

/-- The dynamic document a stored item subdocument presents to decoding.
It carries `id`, `label`, `is_checked` and nothing else — no `_id`. -/
def ItemDoc.toBDoc (i : ItemDoc) : BDoc :=
  [("id", .str i.id), ("label", .str i.label), ("is_checked", .bool i.is_checked)]

/-- A list document as the store holds it: `{_id, name, items}` with `_id`
assigned by the store and items as pushed by `create_item`. -/
structure ListDoc where
  oid : ObjectID
  name : String
  items : List ItemDoc
deriving DecidableEq

/-- The dynamic document a stored list document presents to decoding. -/
def ListDoc.toBDoc (d : ListDoc) : BDoc :=
  [("_id", .oid d.oid), ("name", .str d.name),
   ("items", .arr (d.items.map (fun i => .doc i.toBDoc)))]

/-- The collection: the ordered list of stored list documents. -/
abbrev Store := List ListDoc

/-- Mongo `find_one(filter)`: the first matching document, if any. -/
def findOne (p : ListDoc → Bool) (store : Store) : Option ListDoc :=
  store.find? p

/-- Mongo `delete_one(filter)`: removes the first matching document and
reports `deleted_count` (0 or 1). -/
def deleteOne (p : ListDoc → Bool) : Store → Nat × Store
  | [] => (0, [])
  | d :: rest =>
    if p d then (1, rest)
    else ((deleteOne p rest).1, d :: (deleteOne p rest).2)

/-- Mongo `find_one_and_update(filter, update, return_document=AFTER)`:
updates the first matching document and returns its post-update state, or
`None` when nothing matches. -/
def findOneAndUpdate (p : ListDoc → Bool) (f : ListDoc → ListDoc) :
    Store → Option ListDoc × Store
  | [] => (none, [])
  | d :: rest =>
    if p d then (some (f d), f d :: rest)
    else ((findOneAndUpdate p f rest).1, d :: (findOneAndUpdate p f rest).2)

/-- The compound filter `{"_id": oid, "items.id": item_id}`. -/
def matchesItemFilter (oid : ObjectID) (item_id : String) (d : ListDoc) : Bool :=
  d.oid == oid && d.items.any (fun i => i.id == item_id)

/-- The update `{"$set": {"items.$.is_checked": b}}`: the positional operator
writes the first array element satisfying the filter's `items.id` predicate. -/
def setFirstChecked (item_id : String) (b : Bool) : List ItemDoc → List ItemDoc
  | [] => []
  | i :: rest =>
    if i.id == item_id then { i with is_checked := b } :: rest
    else i :: setFirstChecked item_id b rest

/-- The shared tail `if res: return ToDoList.from_doc(res)` of the three item
mutations: a vanished target yields `None` (no error), a matched target's
post-update document is decoded (falling off the function end also yields
`None`, which cannot happen here since a raised decode error propagates). -/
def decodeAfter : Option ListDoc × Store → Except DalError (Option ToDoList) × Store
  | (none, store') => (.ok none, store')
  | (some d, store') =>
      match ToDoList.from_doc d.toBDoc with
      | .error e => (.error e, store')
      | .ok l => (.ok (some l), store')

/-- `ToDoDAL.create_todo_list`: inserts `{"name": name, "items": []}` and
returns `str(response.inserted_id)`; the store assigns `newOid`. -/
def create_todo_list (name : String) (newOid : ObjectID) (store : Store) :
    String × Store :=
  (newOid.hex, store ++ [⟨newOid, name, []⟩])

/-- `ToDoDAL.get_todo_list`: `find_one({"_id": ObjectID(id)})` then
`ToDoList.from_doc` on the raw result (which is `None` on no match). -/
def get_todo_list (id : String) (store : Store) : Except DalError ToDoList :=
  match ObjectID.decode id with
  | .error e => .error e
  | .ok oid =>
      ToDoList.from_docN ((findOne (fun d => d.oid == oid) store).map ListDoc.toBDoc)

/-- `ToDoDAL.delete_todo_list`: `delete_one({"_id": ObjectID(id)})`, result
`response.deleted_count == 1`. -/
def delete_todo_list (id : String) (store : Store) :
    Except DalError Bool × Store :=
  match ObjectID.decode id with
  | .error e => (.error e, store)
  | .ok oid =>
      (.ok ((deleteOne (fun d => d.oid == oid) store).1 == 1),
       (deleteOne (fun d => d.oid == oid) store).2)

/-- `ToDoDAL.create_item`: find-and-update on `{"_id": ObjectID(id)}` pushing
`{"id": fresh, "label": label, "is_checked": False}` onto `items`, returning
the post-update document decoded by `ToDoList.from_doc`, or `None` (no error)
when the list does not exist. `fresh` stands for `uuid4().hex`. -/
def create_item (id : String) (label : String) (fresh : String) (store : Store) :
    Except DalError (Option ToDoList) × Store :=
  match ObjectID.decode id with
  | .error e => (.error e, store)
  | .ok oid =>
      decodeAfter (findOneAndUpdate (fun d => d.oid == oid)
        (fun d => { d with items := d.items ++ [⟨fresh, label, false⟩] }) store)

/-- `ToDoDAL.set_checked_state`: find-and-update on the compound filter with
`{"$set": {"items.$.is_checked": is_checked}}`, AFTER; `None` on no match. -/
def set_checked_state (doc_id : String) (item_id : String) (is_checked : Bool)
    (store : Store) : Except DalError (Option ToDoList) × Store :=
  match ObjectID.decode doc_id with
  | .error e => (.error e, store)
  | .ok oid =>
      decodeAfter (findOneAndUpdate (matchesItemFilter oid item_id)
        (fun d => { d with items := setFirstChecked item_id is_checked d.items }) store)

/-- `ToDoDAL.delete_item`: find-and-update on the compound filter with
`{"$pull": {"items": {"id": item_id}}}` (removing every matching element),
AFTER; `None` on no match. -/
def delete_item (doc_id : String) (item_id : String) (store : Store) :
    Except DalError (Option ToDoList) × Store :=
  match ObjectID.decode doc_id with
  | .error e => (.error e, store)
  | .ok oid =>
      decodeAfter (findOneAndUpdate (matchesItemFilter oid item_id)
        (fun d => { d with items := d.items.filter (fun i => !(i.id == item_id)) }) store)

/-- The enumeration query's projection `{"name": 1, "item_count":
{"$size": "$items"}}` (with `_id` included by default). -/
def summaryProjection (d : ListDoc) : BDoc :=
  [("_id", .oid d.oid), ("name", .str d.name),
   ("item_count", .int (d.items.length : Int))]

/-- The enumeration query's `sort={"name": 1}`: ascending lexicographic order
on `name`, stable within the query. -/
def sortByName (store : Store) : Store :=
  List.insertionSort (fun a b => a.name ≤ b.name) store

/-- Sequencing of the generator `yield ListSummary.from_doc(doc)`: the first
raising document aborts the iteration. -/
def seqE : List (Except DalError ListSummary) → Except DalError (List ListSummary)
  | [] => .ok []
  | x :: xs => do
      let a ← x
      let tl ← seqE xs
      .ok (a :: tl)

/-- `ToDoDAL.list_todo_lists`: all documents, projected and sorted by name,
each decoded through `ListSummary.from_doc`. -/
def list_todo_lists (store : Store) : Except DalError (List ListSummary) :=
  seqE ((sortByName store).map (fun d => ListSummary.from_doc (summaryProjection d)))

/-- The summary the enumeration yields for a stored document. -/
def mkSummary (d : ListDoc) : ListSummary :=
  ⟨d.oid.hex, d.name, (d.items.length : Int)⟩

/-- A valid 24-char hex identifier used as concrete test data. -/
def hexA : String := "aaaaaaaaaaaaaaaaaaaaaaaa"

/-- A second valid identifier, distinct from `hexA`. -/
def hexB : String := "bbbbbbbbbbbbbbbbbbbbbbbb"

/-- The `ObjectID` behind `hexA`. -/
def oidA : ObjectID := ⟨hexA⟩

/-! ## Decode behaviour of stored documents -/

/-- Decoding any stored item subdocument raises `KeyError` for `_id`:
`ToDoListItem.from_doc` reads `item["_id"]`, but stored item subdocuments
carry the field `id`. -/
theorem itemDoc_decode (i : ItemDoc) :
    ToDoListItem.from_doc i.toBDoc = .error (.keyError "_id") := rfl

/-- A stored list document with no items decodes successfully. -/
theorem listDoc_decode_nil (o : ObjectID) (nm : String) :
    ToDoList.from_doc (ListDoc.toBDoc ⟨o, nm, []⟩) = .ok ⟨o.hex, nm, []⟩ := rfl

/-- A stored list document with at least one item fails to decode: its first
item subdocument raises `KeyError` for `_id`. -/
theorem listDoc_decode_cons (o : ObjectID) (nm : String) (i : ItemDoc)
    (rest : List ItemDoc) :
    ToDoList.from_doc (ListDoc.toBDoc ⟨o, nm, i :: rest⟩) = .error (.keyError "_id") := rfl

/-- Decoding a stored list document with a nonempty item sequence fails. -/
theorem listDoc_decode_of_ne_nil (d : ListDoc) (h : d.items ≠ []) :
    ToDoList.from_doc d.toBDoc = .error (.keyError "_id") := by
  obtain ⟨o, nm, its⟩ := d
  cases its with
  | nil => exact absurd rfl h
  | cons i rest => rfl

/-! ## Behaviour of the modelled store requests -/

/-- A find-and-update whose filter matches nothing returns `None` and leaves
the collection unchanged. -/
theorem findOneAndUpdate_no_match (p : ListDoc → Bool) (f : ListDoc → ListDoc)
    (store : Store) (h : ∀ d ∈ store, p d = false) :
    findOneAndUpdate p f store = (none, store) := by
  induction store with
  | nil => rfl
  | cons d rest ih =>
      have hd := h d (List.mem_cons_self d rest)
      simp [findOneAndUpdate, hd, ih (fun x hx => h x (List.mem_cons_of_mem d hx))]

/-- `delete_one` reports one deletion exactly when some document matches. -/
theorem deleteOne_count (p : ListDoc → Bool) (store : Store) :
    (deleteOne p store).1 = (if store.any p then 1 else 0) := by
  induction store with
  | nil => simp [deleteOne]
  | cons d rest ih =>
      by_cases hd : p d
      · simp [deleteOne, hd, List.any_cons]
      · simp only [deleteOne, hd, if_false, List.any_cons, Bool.false_or, ih]
        simp [hd]

/-- `delete_one` removes exactly as many documents as it reports. -/
theorem deleteOne_length (p : ListDoc → Bool) (store : Store) :
    (deleteOne p store).2.length + (deleteOne p store).1 = store.length := by
  induction store with
  | nil => simp [deleteOne]
  | cons d rest ih =>
      cases hd : p d
      · simp only [deleteOne, hd, Bool.false_eq_true, if_false, List.length_cons]
        omega
      · simp [deleteOne, hd]

/-- A `delete_one` with no matching document deletes nothing. -/
theorem deleteOne_no_match (p : ListDoc → Bool) (store : Store)
    (h : store.any p = false) : deleteOne p store = (0, store) := by
  induction store with
  | nil => rfl
  | cons d rest ih =>
      rw [List.any_cons] at h
      rcases Bool.or_eq_false_iff.mp h with ⟨h1, h2⟩
      simp [deleteOne, h1, ih h2]

/-- When at most one document can match (the collection's unique `_id`
index), no match survives a `delete_one`. -/
theorem deleteOne_removes_all (p : ListDoc → Bool) (store : Store)
    (huniq : store.Pairwise (fun a b => p a = true → p b = true → False)) :
    (deleteOne p store).2.any p = false := by
  induction store with
  | nil => rfl
  | cons d rest ih =>
      rcases List.pairwise_cons.mp huniq with ⟨hd1, htl⟩
      by_cases hd : p d
      · simp only [deleteOne, hd, if_true]
        rw [List.any_eq_false]
        exact fun b hb hpb => hd1 b hb hd hpb
      · rw [Bool.not_eq_true] at hd
        simp only [deleteOne, hd, Bool.false_eq_true, if_false, List.any_cons, ih htl]
        simp [hd]

/-- The positional `$set` of the checked flag rewrites exactly the first
matching element, leaving every other element and the order intact. -/
theorem setFirstChecked_frame (item_id : String) (b : Bool) (l1 l2 : List ItemDoc)
    (m : ItemDoc) (h : ∀ i ∈ l1, (i.id == item_id) = false) (hm : m.id = item_id) :
    setFirstChecked item_id b (l1 ++ m :: l2) = l1 ++ { m with is_checked := b } :: l2 := by
  induction l1 with
  | nil => simp [setFirstChecked, hm]
  | cons i rest ih =>
      have hi := h i (List.mem_cons_self i rest)
      simp only [List.cons_append, setFirstChecked, hi, Bool.false_eq_true, if_false,
        List.append_eq]
      rw [ih (fun j hj => h j (List.mem_cons_of_mem i hj))]

/-- The enumeration's projected document always decodes, to the summary with
the document's id, name and item count. -/
theorem summary_decode (d : ListDoc) :
    ListSummary.from_doc (summaryProjection d) = .ok (mkSummary d) := rfl

/-- Sequencing a generator in which every step succeeds succeeds. -/
theorem seqE_map_ok (f : ListDoc → ListSummary) (l : List ListDoc) :
    seqE (l.map (fun d => .ok (f d))) = .ok (l.map f) := by
  induction l with
  | nil => rfl
  | cons d rest ih =>
      show (Except.ok (f d)).bind (fun a => (seqE (rest.map (fun d => .ok (f d)))).bind
        (fun tl => .ok (a :: tl))) = _
      rw [ih]
      rfl

/-- Element-wise view of the item comprehension. -/
theorem decodeItems_as_elem (v : BVal) (rest : List BVal) :
    decodeItems (v :: rest) =
      (elemDecode v).bind (fun i => (decodeItems rest).bind (fun tl => .ok (i :: tl))) := by
  cases v <;> rfl

/-- A single failing element makes the whole item comprehension fail. -/
theorem decodeItems_fails (elems : List BVal)
    (h : ∃ v ∈ elems, ∃ e, elemDecode v = .error e) :
    ∃ e, decodeItems elems = .error e := by
  induction elems with
  | nil => rcases h with ⟨v, hv, _⟩; cases hv
  | cons v rest ih =>
      rcases h with ⟨w, hw, e, he⟩
      rcases List.mem_cons.mp hw with rfl | hw'
      · exact ⟨e, by rw [decodeItems_as_elem, he]; rfl⟩
      · cases hv : elemDecode v with
        | error e' => exact ⟨e', by rw [decodeItems_as_elem, hv]; rfl⟩
        | ok i =>
            rcases ih ⟨w, hw', e, he⟩ with ⟨e', he'⟩
            exact ⟨e', by rw [decodeItems_as_elem, hv, he']; rfl⟩

/-- A checked-state update whose compound filter matches nothing returns the
absence value `None` (no error) and changes nothing. -/
theorem set_checked_absence
    (doc_id item_id : String) (b : Bool) (store : Store)
    (hv : validOid doc_id = true)
    (h : ∀ d ∈ store, matchesItemFilter ⟨doc_id⟩ item_id d = false) :
    set_checked_state doc_id item_id b store = (.ok none, store) := by
  have hdec : ObjectID.decode doc_id = .ok ⟨doc_id⟩ := by simp [ObjectID.decode, hv]
  simp [set_checked_state, hdec, findOneAndUpdate_no_match _ _ store h, decodeAfter]

/-! ## The claims -/

/-- C1: the item document produced by `create_item` carries the
client-generated token under `id` and has no `_id` field, yet
`ToDoListItem.from_doc` reads `item["_id"]`, so decoding it raises `KeyError`
instead of succeeding with the round-tripped identity the claim states. -/
theorem create_item_document_decode_fails (fresh label : String) :
    getField (ItemDoc.toBDoc ⟨fresh, label, false⟩) "id" = some (.str fresh) ∧
    getField (ItemDoc.toBDoc ⟨fresh, label, false⟩) "_id" = none ∧
    ToDoListItem.from_doc (ItemDoc.toBDoc ⟨fresh, label, false⟩) = .error (.keyError "_id") :=
  ⟨rfl, rfl, rfl⟩

/-- C2: on an existing list `create_item` does append the new item
(label as given, checked `False`, the generated token as identity) to the
stored document, but the call then raises `KeyError` for `_id` while decoding
the post-update document instead of returning the post-update `List`. -/
theorem create_item_appends_but_decode_fails (nm label fresh : String)
    (items : List ItemDoc) :
    create_item hexA label fresh [⟨oidA, nm, items⟩] =
      (.error (.keyError "_id"), [⟨oidA, nm, items ++ [⟨fresh, label, false⟩]⟩]) := by
  have hdec : ObjectID.decode hexA = .ok oidA := rfl
  simp only [create_item, hdec]
  simp only [findOneAndUpdate, beq_self_eq_true, if_true]
  simp only [decodeAfter]
  rw [listDoc_decode_of_ne_nil ⟨oidA, nm, items ++ [(⟨fresh, label, false⟩ : ItemDoc)]⟩
    (by simp)]

/-- C3 counterexample: on a decodable identifier matching no document,
`get_todo_list` fails with the TypeError raised by subscripting the absent
(`None`) document, not with the explicit `NotFound` absence result the claim
states. -/
theorem get_todo_list_missing_is_typeError :
    get_todo_list hexA [] = .error .typeError ∧
    ¬ get_todo_list hexA [] = .error .notFound := by
  refine ⟨rfl, fun h => ?_⟩
  rw [show get_todo_list hexA ([] : Store) = Except.error DalError.typeError from rfl] at h
  simp at h

/-- C3 amended: an identifier that does not decode makes `get_todo_list` fail
with `InvalidId`; a decodable identifier matching no stored document makes it
fail with the TypeError arising from decoding the absent document — there is
no explicit `NotFound` result. -/
theorem get_todo_list_absence_behavior (id : String) (store : Store) :
    (validOid id = false → get_todo_list id store = .error .invalidId) ∧
    (validOid id = true →
      (∀ d ∈ store, (d.oid == (⟨id⟩ : ObjectID)) = false) →
      get_todo_list id store = .error .typeError) := by
  constructor
  · intro h
    simp [get_todo_list, ObjectID.decode, h]
  · intro hv h
    have hfind : findOne (fun d => d.oid == (⟨id⟩ : ObjectID)) store = none := by
      unfold findOne
      rw [List.find?_eq_none]
      intro x hx
      simp [h x hx]
    simp [get_todo_list, ObjectID.decode, hv, hfind, ToDoList.from_docN]

/-- C3 witness: both halves of the amended claim at concrete inputs. -/
theorem get_todo_list_absence_behavior_witness :
    get_todo_list "zzz" [] = .error .invalidId ∧
    get_todo_list hexA [] = .error .typeError :=
  ⟨(get_todo_list_absence_behavior "zzz" []).1 rfl,
   (get_todo_list_absence_behavior hexA []).2 rfl (by simp)⟩

/-- C4: for a decodable identifier over a store whose `_id`s are unique,
`delete_todo_list` returns `true` exactly when a matching document exists,
exactly one document is removed in that case (none otherwise), and a second
identical call returns `false` (not an error). -/
theorem delete_todo_list_true_iff_removed (id : String) (store : Store)
    (hv : validOid id = true)
    (huniq : store.Pairwise (fun a b => a.oid ≠ b.oid)) :
    delete_todo_list id store =
      (.ok (store.any (fun d => d.oid == (⟨id⟩ : ObjectID))),
       (deleteOne (fun d => d.oid == (⟨id⟩ : ObjectID)) store).2) ∧
    (deleteOne (fun d => d.oid == (⟨id⟩ : ObjectID)) store).2.length +
      (if store.any (fun d => d.oid == (⟨id⟩ : ObjectID)) then 1 else 0) = store.length ∧
    delete_todo_list id (deleteOne (fun d => d.oid == (⟨id⟩ : ObjectID)) store).2 =
      (.ok false, (deleteOne (fun d => d.oid == (⟨id⟩ : ObjectID)) store).2) := by
  have hdec : ObjectID.decode id = .ok ⟨id⟩ := by simp [ObjectID.decode, hv]
  have hcount := deleteOne_count (fun d => d.oid == (⟨id⟩ : ObjectID)) store
  have hlen := deleteOne_length (fun d => d.oid == (⟨id⟩ : ObjectID)) store
  have hpw : store.Pairwise
      (fun a b => (fun d => d.oid == (⟨id⟩ : ObjectID)) a = true →
        (fun d => d.oid == (⟨id⟩ : ObjectID)) b = true → False) := by
    refine huniq.imp ?_
    intro a b hab ha hb
    simp only [beq_iff_eq] at ha hb
    exact hab (ha.trans hb.symm)
  have hafter := deleteOne_removes_all (fun d => d.oid == (⟨id⟩ : ObjectID)) store hpw
  have hno := deleteOne_no_match (fun d => d.oid == (⟨id⟩ : ObjectID)) _ hafter
  refine ⟨?_, ?_, ?_⟩
  · simp only [delete_todo_list, hdec]
    rw [hcount]
    cases hany : store.any (fun d => d.oid == (⟨id⟩ : ObjectID)) <;> simp [hany]
  · rw [← hlen, hcount]
  · simp only [delete_todo_list, hdec]
    rw [hno]
    rfl

/-- C4 witness: deleting a singleton store's list succeeds once and the
repeat returns `false`. -/
theorem delete_todo_list_true_iff_removed_witness :
    delete_todo_list hexA [⟨oidA, "G", []⟩] =
      (.ok (([⟨oidA, "G", []⟩] : Store).any (fun d => d.oid == (⟨hexA⟩ : ObjectID))),
       (deleteOne (fun d => d.oid == (⟨hexA⟩ : ObjectID)) [⟨oidA, "G", []⟩]).2) ∧
    (deleteOne (fun d => d.oid == (⟨hexA⟩ : ObjectID)) [⟨oidA, "G", []⟩]).2.length +
      (if ([⟨oidA, "G", []⟩] : Store).any (fun d => d.oid == (⟨hexA⟩ : ObjectID))
        then 1 else 0) = 1 ∧
    delete_todo_list hexA (deleteOne (fun d => d.oid == (⟨hexA⟩ : ObjectID))
        [⟨oidA, "G", []⟩]).2 =
      (.ok false, (deleteOne (fun d => d.oid == (⟨hexA⟩ : ObjectID)) [⟨oidA, "G", []⟩]).2) :=
  delete_todo_list_true_iff_removed hexA [⟨oidA, "G", []⟩] rfl (by simp)

/-- C5: when the list is missing, or present without the item, the update
returns the single absence value `None` (not an error); but on a matching
pair the call raises `KeyError` for `_id` while decoding the updated
document instead of returning the updated `List`. -/
theorem set_checked_state_absence_collapsing :
    (∀ (doc_id item_id : String) (b : Bool) (store : Store),
        validOid doc_id = true →
        (∀ d ∈ store, matchesItemFilter ⟨doc_id⟩ item_id d = false) →
        set_checked_state doc_id item_id b store = (.ok none, store)) ∧
    set_checked_state hexA "i1" true [⟨oidA, "G", [⟨"i1", "Milk", false⟩]⟩] =
      (.error (.keyError "_id"), [⟨oidA, "G", [⟨"i1", "Milk", true⟩]⟩]) :=
  ⟨set_checked_absence, rfl⟩

/-- C5 witness: a nonexistent list id collapses to `None` with the store
untouched. -/
theorem set_checked_state_absence_collapsing_witness :
    set_checked_state hexB "i9" true [⟨oidA, "G", [⟨"i1", "Milk", false⟩]⟩] =
      (.ok none, [⟨oidA, "G", [⟨"i1", "Milk", false⟩]⟩]) :=
  set_checked_state_absence_collapsing.1 hexB "i9" true _ rfl (by decide)

/-- C6: the enumeration yields exactly one summary per stored list (a
permutation of the per-document summaries), sorted ascending by name, each
carrying `item_count` equal to the length of that list's item sequence. -/
theorem list_todo_lists_sorted_summary_per_list (store : Store) :
    ∃ l, list_todo_lists store = .ok l ∧
      l.Perm (store.map mkSummary) ∧
      List.Sorted (fun a b : ListSummary => a.name ≤ b.name) l ∧
      ∀ d ∈ store, mkSummary d ∈ l ∧ (mkSummary d).item_count = (d.items.length : Int) := by
  refine ⟨(sortByName store).map mkSummary, ?_, ?_, ?_, ?_⟩
  · unfold list_todo_lists
    have hmap : (sortByName store).map (fun d => ListSummary.from_doc (summaryProjection d)) =
        (sortByName store).map (fun d => .ok (mkSummary d)) :=
      List.map_congr_left (fun d _ => summary_decode d)
    rw [hmap, seqE_map_ok]
  · exact (List.perm_insertionSort _ store).map mkSummary
  · have hs : List.Sorted (fun a b : ListDoc => a.name ≤ b.name) (sortByName store) := by
      haveI h1 : IsTotal ListDoc (fun a b => a.name ≤ b.name) :=
        ⟨fun a b => le_total a.name b.name⟩
      haveI h2 : IsTrans ListDoc (fun a b => a.name ≤ b.name) :=
        ⟨fun a b c hab hbc => le_trans hab hbc⟩
      exact List.sorted_insertionSort _ store
    exact List.Pairwise.map mkSummary (fun a b hab => hab) hs
  · intro d hd
    refine ⟨?_, rfl⟩
    exact ((List.perm_insertionSort _ store).map mkSummary).mem_iff.mpr
      (List.mem_map_of_mem mkSummary hd)

/-- C7: a matching checked-state update rewrites, in the stored document,
exactly the targeted item's flag — identity, label, every other item and the
order survive — but the operation then raises `KeyError` for `_id` while
decoding the updated document, so the claimed returned `List` never
materialises. -/
theorem set_checked_state_frame_then_decode_fails
    (nm : String) (l1 l2 : List ItemDoc) (m : ItemDoc) (b : Bool)
    (h : ∀ i ∈ l1, (i.id == m.id) = false) :
    set_checked_state hexA m.id b [⟨oidA, nm, l1 ++ m :: l2⟩] =
      (.error (.keyError "_id"), [⟨oidA, nm, l1 ++ { m with is_checked := b } :: l2⟩]) := by
  have hdec : ObjectID.decode hexA = .ok oidA := rfl
  have hmatch : matchesItemFilter oidA m.id ⟨oidA, nm, l1 ++ m :: l2⟩ = true := by
    simp [matchesItemFilter, List.any_append]
  simp only [set_checked_state, hdec]
  simp only [findOneAndUpdate, hmatch, if_true]
  rw [show setFirstChecked m.id b (⟨oidA, nm, l1 ++ m :: l2⟩ : ListDoc).items
        = l1 ++ { m with is_checked := b } :: l2 from
      setFirstChecked_frame m.id b l1 l2 m h rfl]
  simp only [decodeAfter]
  rw [listDoc_decode_of_ne_nil ⟨oidA, nm, l1 ++ { m with is_checked := b } :: l2⟩ (by simp)]

/-- C7 witness: a two-item list, flipping the second item. -/
theorem set_checked_state_frame_then_decode_fails_witness :
    set_checked_state hexA "i2" true
        [⟨oidA, "G", [⟨"i1", "Milk", false⟩, ⟨"i2", "Eggs", false⟩]⟩] =
      (.error (.keyError "_id"),
       [⟨oidA, "G", [⟨"i1", "Milk", false⟩, ⟨"i2", "Eggs", true⟩]⟩]) :=
  set_checked_state_frame_then_decode_fails "G" [⟨"i1", "Milk", false⟩] []
    ⟨"i2", "Eggs", false⟩ true (by decide)

/-- C8 counterexample: a document whose item carries the mistyped field
`is_checked: 1` (an int, not a bool) is decoded successfully by
`ToDoList.from_doc` — pydantic's lax mode coerces it to `True`, a
best-effort result — refuting the claim that every mistyped field makes the
decode fail. -/
theorem from_doc_coerces_mistyped_bool :
    ToDoList.from_doc
        [("_id", .oid oidA), ("name", .str "G"),
         ("items", .arr [.doc [("_id", .str "x"), ("label", .str "Milk"),
            ("is_checked", .int 1)]])] =
      .ok ⟨hexA, "G", [⟨"x", "Milk", true⟩]⟩ := rfl

/-- C8 amended: `ToDoList.from_doc` fails — with the KeyError / TypeError /
ValidationError family standing for `MalformedDocument`, no partial result —
on every document missing `_id`, `name` or `items`, carrying a non-string
`name`, or holding an item element that does not decode; but an item's
mistyped `is_checked` of 0/1 or a boolean-like string is lax-coerced to a
bool (see the counterexample), so a mistyped field does not always fail. -/
theorem from_doc_rejects_malformed (doc : BDoc)
    (h : getField doc "_id" = none ∨
         getField doc "name" = none ∨
         (∃ v, getField doc "name" = some v ∧ ∀ s, v ≠ .str s) ∨
         getField doc "items" = none ∨
         (∃ elems, getField doc "items" = some (.arr elems) ∧
            ∃ v ∈ elems, ∃ e, elemDecode v = .error e)) :
    ∃ e, ToDoList.from_doc doc = .error e := by
  cases hid : getField doc "_id" with
  | none => exact ⟨.keyError "_id", by simp [ToDoList.from_doc, hid]⟩
  | some idv =>
    cases hname : getField doc "name" with
    | none => exact ⟨.keyError "name", by simp [ToDoList.from_doc, hid, hname]⟩
    | some namev =>
      cases hitems : getField doc "items" with
      | none => exact ⟨.keyError "items", by simp [ToDoList.from_doc, hid, hname, hitems]⟩
      | some itemsv =>
        rcases h with h | h | ⟨v, hv, hvs⟩ | h | ⟨elems, he, hbad⟩
        · rw [hid] at h; simp at h
        · rw [hname] at h; simp at h
        · rw [hname] at hv
          injection hv with hv
          subst hv
          cases itemsv with
          | arr elems =>
              cases hdi : decodeItems elems with
              | error e =>
                  exact ⟨e, by simp [ToDoList.from_doc, hid, hname, hitems, hdi]⟩
              | ok its =>
                  refine ⟨.validationError, ?_⟩
                  cases namev with
                  | str s => exact absurd rfl (hvs s)
                  | bool b => simp [ToDoList.from_doc, hid, hname, hitems, hdi]
                  | int n => simp [ToDoList.from_doc, hid, hname, hitems, hdi]
                  | oid o => simp [ToDoList.from_doc, hid, hname, hitems, hdi]
                  | arr l => simp [ToDoList.from_doc, hid, hname, hitems, hdi]
                  | doc l => simp [ToDoList.from_doc, hid, hname, hitems, hdi]
          | str s => exact ⟨.typeError, by simp [ToDoList.from_doc, hid, hname, hitems]⟩
          | bool b => exact ⟨.typeError, by simp [ToDoList.from_doc, hid, hname, hitems]⟩
          | int n => exact ⟨.typeError, by simp [ToDoList.from_doc, hid, hname, hitems]⟩
          | oid o => exact ⟨.typeError, by simp [ToDoList.from_doc, hid, hname, hitems]⟩
          | doc l => exact ⟨.typeError, by simp [ToDoList.from_doc, hid, hname, hitems]⟩
        · rw [hitems] at h; simp at h
        · rw [hitems] at he
          injection he with he
          subst he
          rcases decodeItems_fails elems hbad with ⟨e, hde⟩
          exact ⟨e, by simp [ToDoList.from_doc, hid, hname, hitems, hde]⟩

/-- C8 witness: a document missing `name` fails to decode. -/
theorem from_doc_rejects_malformed_witness :
    ∃ e, ToDoList.from_doc [("_id", .oid oidA), ("items", .arr [])] = .error e :=
  from_doc_rejects_malformed [("_id", .oid oidA), ("items", .arr [])] (Or.inr (Or.inl rfl))

/-- C9: a non-decodable external identifier makes every operation fail with
`InvalidId` for every store state, the store left untouched — the error is
raised by the `ObjectID` constructor before any store request is issued. -/
theorem invalid_id_rejected_before_store (id : String) (h : validOid id = false) :
    ∀ (store : Store) (label fresh item_id : String) (b : Bool),
      get_todo_list id store = .error .invalidId ∧
      delete_todo_list id store = (.error .invalidId, store) ∧
      create_item id label fresh store = (.error .invalidId, store) ∧
      set_checked_state id item_id b store = (.error .invalidId, store) ∧
      delete_item id item_id store = (.error .invalidId, store) := by
  intro store label fresh item_id b
  have hdec : ObjectID.decode id = .error .invalidId := by simp [ObjectID.decode, h]
  refine ⟨?_, ?_, ?_, ?_, ?_⟩ <;>
    simp [get_todo_list, delete_todo_list, create_item, set_checked_state,
      delete_item, hdec]

/-- C9 witness: the string `zzz` is rejected by all five operations. -/
theorem invalid_id_rejected_before_store_witness :
    get_todo_list "zzz" [⟨oidA, "G", []⟩] = .error .invalidId ∧
    delete_todo_list "zzz" [⟨oidA, "G", []⟩] = (.error .invalidId, [⟨oidA, "G", []⟩]) ∧
    create_item "zzz" "Milk" "f1" [⟨oidA, "G", []⟩] = (.error .invalidId, [⟨oidA, "G", []⟩]) ∧
    set_checked_state "zzz" "i1" true [⟨oidA, "G", []⟩] =
      (.error .invalidId, [⟨oidA, "G", []⟩]) ∧
    delete_item "zzz" "i1" [⟨oidA, "G", []⟩] = (.error .invalidId, [⟨oidA, "G", []⟩]) :=
  invalid_id_rejected_before_store "zzz" rfl [⟨oidA, "G", []⟩] "Milk" "f1" "i1" true

/-- C10: `delete_item`'s `$pull` removes every item with the target identity
(both `i1` copies below) and preserves the others in order inside the stored
document, but with items remaining the call raises `KeyError` for `_id`
while decoding instead of returning the List; only when the result is empty
does it return the updated List. -/
theorem delete_item_pulls_all_then_decode_fails :
    delete_item hexA "i1"
        [⟨oidA, "G", [⟨"i1", "Milk", false⟩, ⟨"i1", "Dup", true⟩, ⟨"i2", "Eggs", false⟩]⟩] =
      (.error (.keyError "_id"), [⟨oidA, "G", [⟨"i2", "Eggs", false⟩]⟩]) ∧
    delete_item hexA "i1" [⟨oidA, "G", [⟨"i1", "Milk", false⟩]⟩] =
      (.ok (some ⟨hexA, "G", []⟩), [⟨oidA, "G", []⟩]) :=
  ⟨rfl, rfl⟩

end FarmDal
